import Mathlib

/-!
Shallow embedding of `lightning/src/ln/interactivetxs.rs` (interactive
transaction construction): the `NegotiationContext` validators, the
`StateMachine` over {LocalChange, RemoteChange, LocalTxComplete,
RemoteTxComplete, NegotiationComplete, NegotiationAborted}, and the
`InteractiveTxConstructor` driver.

Modelling conventions:
* Rust `u64`/`u32`/`u16` values are `Nat`; wrap-around is made explicit with
  `% 2 ^ 64` exactly where the source performs u64 arithmetic whose overflow
  is observable (sums and the fee subtraction in `build_transaction`).
  Rust's release-mode wrapping semantics is used; debug builds would abort
  on the same inputs.
* Rust `u64` division by zero aborts; Lean's `Nat` division returns 0.
  Theorems touching the fee division keep concrete divisors nonzero.
* `HashMap<SerialId, V>` is an association list `List (Nat × V)` with
  `HashMap::insert` / `remove` semantics (insert returns the previous
  value); `HashSet<OutPoint>` is a duplicate-free `List BOutPoint`.
* Bitcoin-library functionality (script introspection, dust, serialization,
  txid hashing) is an external collaborator of this module; those few
  functions are modelled from the spec and marked as such.
* Fallible Rust functions that mutate `self` before failing are embedded as
  functions returning the error `Option` together with the mutated state.
-/

namespace InteractiveTxs

/-- Abort reasons, from `enum AbortReason` in interactivetxs.rs. -/
inductive AbortReason where
  | CounterpartyAborted
  | UnexpectedCounterpartyMessage
  | InputsNotConfirmed
  | ReceivedTooManyTxAddInputs
  | ReceivedTooManyTxAddOutputs
  | IncorrectInputSequenceValue
  | IncorrectSerialIdParity
  | SerialIdUnknown
  | DuplicateSerialId
  | PrevTxOutInvalid
  | ExceededMaximumSatsAllowed
  | ExceededNumberOfInputsOrOutputs
  | InvalidTransactionState
  | TransactionTooLarge
  | ExceededDustLimit
  | InvalidOutputScript
  | InsufficientFees
  | OutputsExceedInputs
  deriving DecidableEq, Repr

/-- A serialized Bitcoin script, as its list of raw bytes. -/
abbrev Script := List Nat

/-- Modelled from the spec: the Bitcoin library's witness-program
recognition (`Script::is_witness_program`, SegWit v0/v1): total length
4..=42, version byte `OP_0` or `OP_PUSHNUM_1..=16`, second byte a push of
exactly the remaining length. Script introspection is an external
collaborator of this module. -/
def Script.is_witness_program (s : Script) : Bool :=
  match s with
  | v :: p :: _ =>
      decide (4 ≤ s.length) && decide (s.length ≤ 42) &&
      (v == 0 || (0x51 ≤ v && v ≤ 0x60)) && (p == s.length - 2)
  | _ => false

/-- Modelled from the spec: `Script::is_v0_p2wpkh` (external Bitcoin library). -/
def Script.is_v0_p2wpkh (s : Script) : Bool :=
  s.length == 22 && s[0]? == some 0 && s[1]? == some 20

/-- Modelled from the spec: `Script::is_v0_p2wsh` (external Bitcoin library). -/
def Script.is_v0_p2wsh (s : Script) : Bool :=
  s.length == 34 && s[0]? == some 0 && s[1]? == some 32

/-- Modelled from the spec: `Script::is_v1_p2tr` (external Bitcoin library). -/
def Script.is_v1_p2tr (s : Script) : Bool :=
  s.length == 34 && s[0]? == some 0x51 && s[1]? == some 32

/-- Modelled from the spec: the Bitcoin library's `Script::dust_value`
("294 sat for P2WPKH", script-kind dependent): three times the cost in
vbytes of creating plus spending the output (67 vbytes to spend a segwit
output, 148 otherwise; the output itself serializes to `9 + len` bytes). -/
def Script.dust_value (s : Script) : Nat :=
  if s.is_witness_program then (s.length + 9 + 67) * 3 else (s.length + 9 + 148) * 3

/-- A Bitcoin transaction output (`bitcoin::TxOut`). -/
structure BTxOut where
  value : Nat
  script_pubkey : Script
  deriving DecidableEq, Repr

/-- A Bitcoin outpoint (`bitcoin::OutPoint`): a txid and an output index. -/
structure BOutPoint where
  txid : List Nat
  vout : Nat
  deriving DecidableEq, Repr

/-- A Bitcoin transaction input (`bitcoin::TxIn`). The source only ever
builds inputs with an empty `script_sig` and witness, so only the
previous outpoint and sequence are carried. -/
structure BTxIn where
  previous_output : BOutPoint
  sequence : Nat
  deriving DecidableEq, Repr

/-- A Bitcoin transaction (`bitcoin::Transaction`). -/
structure BTransaction where
  version : Nat
  lock_time : Nat
  input : List BTxIn
  output : List BTxOut
  deriving DecidableEq, Repr

/-- Modelled from the spec: the transaction digest `Transaction::txid()` is
an opaque, collision-free identifier produced by the Bitcoin library
(hashing is out of scope); modelled as a structural encoding of the
transaction. -/
def BTransaction.txid (tx : BTransaction) : List Nat :=
  [tx.version, tx.lock_time, tx.input.length] ++
    (tx.input.map (fun i =>
      i.previous_output.txid ++ [i.previous_output.vout, i.sequence])).flatten ++
    [tx.output.length] ++
    (tx.output.map (fun o => [o.value, o.script_pubkey.length] ++ o.script_pubkey)).flatten

/-- Modelled from the spec: length of Bitcoin's compact-size encoding of a
count (serialization is an external collaborator). -/
def compactSizeLen (n : Nat) : Nat :=
  if n < 253 then 1 else if n < 65536 then 3 else if n < 4294967296 then 5 else 9

/-- Modelled from the spec: the Bitcoin library's `Transaction::weight()`
for a transaction whose inputs carry empty script_sigs and no witness data
(the only shape this module assembles): 4 weight units per serialized byte,
41 bytes per input, `8 + compact-size + script` bytes per output, plus the
common fields. -/
def BTransaction.weight (tx : BTransaction) : Nat :=
  4 * (4 + compactSizeLen tx.input.length + 41 * tx.input.length +
    compactSizeLen tx.output.length +
    (tx.output.map (fun o =>
      8 + compactSizeLen o.script_pubkey.length + o.script_pubkey.length)).sum +
    4)

namespace msgs

/-- Wire message `tx_add_input` (`msgs::TxAddInput`). -/
structure TxAddInput where
  channel_id : Nat
  serial_id : Nat
  prevtx : BTransaction
  prevtx_out : Nat
  sequence : Nat
  deriving DecidableEq, Repr

/-- Wire message `tx_remove_input` (`msgs::TxRemoveInput`). -/
structure TxRemoveInput where
  channel_id : Nat
  serial_id : Nat
  deriving DecidableEq, Repr

/-- Wire message `tx_add_output` (`msgs::TxAddOutput`). -/
structure TxAddOutput where
  channel_id : Nat
  serial_id : Nat
  sats : Nat
  script : Script
  deriving DecidableEq, Repr

/-- Wire message `tx_remove_output` (`msgs::TxRemoveOutput`). -/
structure TxRemoveOutput where
  channel_id : Nat
  serial_id : Nat
  deriving DecidableEq, Repr

/-- Wire message `tx_complete` (`msgs::TxComplete`). -/
structure TxComplete where
  channel_id : Nat
  deriving DecidableEq, Repr

end msgs

/-- Lookup in the association-list model of `HashMap<SerialId, V>`. -/
def findMap {α : Type} (m : List (Nat × α)) (k : Nat) : Option α :=
  match m with
  | [] => none
  | (k', v) :: rest => if k' = k then some v else findMap rest k

/-- `HashMap::insert`: stores the value and returns the previous value
bound to the key, if any. -/
def insertMap {α : Type} (m : List (Nat × α)) (k : Nat) (v : α) :
    Option α × List (Nat × α) :=
  match findMap m k with
  | some old => (some old, m.map (fun p => if p.1 = k then (k, v) else p))
  | none => (none, m ++ [(k, v)])

/-- `HashMap::remove`: removes and returns the value bound to the key, if any. -/
def removeMap {α : Type} (m : List (Nat × α)) (k : Nat) :
    Option α × List (Nat × α) :=
  match m with
  | [] => (none, [])
  | (k', v) :: rest =>
      if k' = k then (some v, rest)
      else
        let r := removeMap rest k
        (r.1, (k', v) :: r.2)

/-- `HashSet::insert`: `true` when the element was newly inserted. -/
def insertSet (s : List BOutPoint) (o : BOutPoint) : Bool × List BOutPoint :=
  if o ∈ s then (false, s) else (true, s ++ [o])

/-- `HashSet::remove`. -/
def removeSet (s : List BOutPoint) (o : BOutPoint) : List BOutPoint :=
  s.erase o

/-- `TxInputWithPrevOutput` from interactivetxs.rs. -/
structure TxInputWithPrevOutput where
  input : BTxIn
  prev_output : BTxOut
  deriving DecidableEq, Repr

/-- `struct NegotiationContext` from interactivetxs.rs. The two received
counters are `u16` in the source; they are modelled as `Nat` (every checked
bound is 4096 < 2 ^ 16). -/
structure NegotiationContext where
  require_confirmed_inputs : Bool
  holder_is_initiator : Bool
  received_tx_add_input_count : Nat
  received_tx_add_output_count : Nat
  inputs : List (Nat × TxInputWithPrevOutput)
  prevtx_outpoints : List BOutPoint
  outputs : List (Nat × BTxOut)
  base_tx : BTransaction
  did_send_tx_signatures : Bool
  feerate_sat_per_kw : Nat
  deriving DecidableEq, Repr

/-- `SerialIdExt::is_valid_for_initiator`: even serial ids belong to the
initiator. -/
def is_valid_for_initiator (serial_id : Nat) : Bool := serial_id % 2 == 0

/-- `NegotiationContext::is_valid_counterparty_serial_id`: a received
serial id's parity must match the counterparty's role. -/
def NegotiationContext.is_valid_counterparty_serial_id
    (c : NegotiationContext) (serial_id : Nat) : Bool :=
  c.holder_is_initiator == !(is_valid_for_initiator serial_id)

def MAX_RECEIVED_TX_ADD_INPUT_COUNT : Nat := 4096
def MAX_RECEIVED_TX_ADD_OUTPUT_COUNT : Nat := 4096
def MAX_INPUTS_OUTPUTS_COUNT : Nat := 252
def TOTAL_BITCOIN_SUPPLY_SATOSHIS : Nat := 2100000000000000
def MAX_STANDARD_TX_WEIGHT : Nat := 400000
def WITNESS_SCALE_FACTOR : Nat := 4
def INPUT_WEIGHT : Nat := (32 + 4 + 4) * WITNESS_SCALE_FACTOR
def OUTPUT_WEIGHT : Nat := 8 * WITNESS_SCALE_FACTOR

/-- The modulus of `u64` arithmetic. -/
def U64_MOD : Nat := 2 ^ 64

/-- Wrapping `u64` subtraction: release-mode Rust `a - b` on `u64`
(debug builds abort on underflow instead). -/
def u64_wrapping_sub (a b : Nat) : Nat :=
  (U64_MOD + a % U64_MOD - b % U64_MOD) % U64_MOD

/-- `NegotiationContext::receive_tx_add_input`. Returns the abort reason
(if any) together with the context as mutated up to the point of failure. -/
def NegotiationContext.receive_tx_add_input (c : NegotiationContext)
    (msg : msgs.TxAddInput) (confirmed : Bool) :
    Option AbortReason × NegotiationContext :=
  if !(c.is_valid_counterparty_serial_id msg.serial_id) then
    (some .IncorrectSerialIdParity, c)
  else if 0xFFFFFFFE ≤ msg.sequence then
    (some .IncorrectInputSequenceValue, c)
  else if c.require_confirmed_inputs && !confirmed then
    (some .InputsNotConfirmed, c)
  else
    match msg.prevtx.output[msg.prevtx_out]? with
    | none => (some .PrevTxOutInvalid, c)
    | some tx_out =>
      if !tx_out.script_pubkey.is_witness_program then
        (some .PrevTxOutInvalid, c)
      else
        let op : BOutPoint := { txid := msg.prevtx.txid, vout := msg.prevtx_out }
        let ins := insertSet c.prevtx_outpoints op
        if !ins.1 then
          (some .PrevTxOutInvalid, c)
        else
          let c := { c with prevtx_outpoints := ins.2,
                            received_tx_add_input_count :=
                              c.received_tx_add_input_count + 1 }
          if MAX_RECEIVED_TX_ADD_INPUT_COUNT < c.received_tx_add_input_count then
            (some .ReceivedTooManyTxAddInputs, c)
          else
            let entry : TxInputWithPrevOutput :=
              { input := { previous_output := op, sequence := msg.sequence },
                prev_output := tx_out }
            let r := insertMap c.inputs msg.serial_id entry
            let c := { c with inputs := r.2 }
            match r.1 with
            | none => (none, c)
            | some _ => (some .DuplicateSerialId, c)

/-- `NegotiationContext::receive_tx_remove_input`. -/
def NegotiationContext.receive_tx_remove_input (c : NegotiationContext)
    (serial_id : Nat) : Option AbortReason × NegotiationContext :=
  if !(c.is_valid_counterparty_serial_id serial_id) then
    (some .IncorrectSerialIdParity, c)
  else
    let r := removeMap c.inputs serial_id
    match r.1 with
    | some input =>
        (none, { c with inputs := r.2,
                        prevtx_outpoints :=
                          removeSet c.prevtx_outpoints input.input.previous_output })
    | none => (some .SerialIdUnknown, c)

/-- `NegotiationContext::receive_tx_add_output`. -/
def NegotiationContext.receive_tx_add_output (c : NegotiationContext)
    (serial_id : Nat) (output : BTxOut) :
    Option AbortReason × NegotiationContext :=
  if !(c.is_valid_counterparty_serial_id serial_id) then
    (some .IncorrectSerialIdParity, c)
  else
    let c := { c with received_tx_add_output_count :=
                        c.received_tx_add_output_count + 1 }
    if MAX_RECEIVED_TX_ADD_OUTPUT_COUNT < c.received_tx_add_output_count then
      (some .ReceivedTooManyTxAddOutputs, c)
    else if output.value < output.script_pubkey.dust_value then
      (some .ExceededDustLimit, c)
    else if TOTAL_BITCOIN_SUPPLY_SATOSHIS < output.value then
      (some .ExceededMaximumSatsAllowed, c)
    else if !output.script_pubkey.is_v0_p2wpkh && !output.script_pubkey.is_v0_p2wsh
        && !output.script_pubkey.is_v1_p2tr then
      (some .InvalidOutputScript, c)
    else
      let r := insertMap c.outputs serial_id output
      let c := { c with outputs := r.2 }
      match r.1 with
      | none => (none, c)
      | some _ => (some .DuplicateSerialId, c)

/-- `NegotiationContext::receive_tx_remove_output`. -/
def NegotiationContext.receive_tx_remove_output (c : NegotiationContext)
    (serial_id : Nat) : Option AbortReason × NegotiationContext :=
  if !(c.is_valid_counterparty_serial_id serial_id) then
    (some .IncorrectSerialIdParity, c)
  else
    let r := removeMap c.outputs serial_id
    match r.1 with
    | some _ => (none, { c with outputs := r.2 })
    | none => (some .SerialIdUnknown, c)

/-- `NegotiationContext::send_tx_add_input`. -/
def NegotiationContext.send_tx_add_input (c : NegotiationContext)
    (msg : msgs.TxAddInput) : Option AbortReason × NegotiationContext :=
  let op : BOutPoint := { txid := msg.prevtx.txid, vout := msg.prevtx_out }
  match msg.prevtx.output[msg.prevtx_out]? with
  | none => (some .PrevTxOutInvalid, c)
  | some prev_output =>
      let entry : TxInputWithPrevOutput :=
        { input := { previous_output := op, sequence := msg.sequence },
          prev_output := prev_output }
      (none, { c with inputs := (insertMap c.inputs msg.serial_id entry).2 })

/-- `NegotiationContext::send_tx_add_output`. -/
def NegotiationContext.send_tx_add_output (c : NegotiationContext)
    (serial_id : Nat) (output : BTxOut) : NegotiationContext :=
  { c with outputs := (insertMap c.outputs serial_id output).2 }

/-- `NegotiationContext::send_tx_remove_input`. Removes the entry from
`inputs`; the source does not touch `prevtx_outpoints` here. -/
def NegotiationContext.send_tx_remove_input (c : NegotiationContext)
    (serial_id : Nat) : NegotiationContext :=
  { c with inputs := (removeMap c.inputs serial_id).2 }

/-- `NegotiationContext::send_tx_remove_output`. -/
def NegotiationContext.send_tx_remove_output (c : NegotiationContext)
    (serial_id : Nat) : NegotiationContext :=
  { c with outputs := (removeMap c.outputs serial_id).2 }

/-- `NegotiationContext::initiator_inputs_contributed`: inputs whose serial
id has initiator (even) parity. -/
def NegotiationContext.initiator_inputs_contributed (c : NegotiationContext) :
    List TxInputWithPrevOutput :=
  (c.inputs.filter (fun p => is_valid_for_initiator p.1)).map (fun p => p.2)

/-- `NegotiationContext::non_initiator_inputs_contributed`. -/
def NegotiationContext.non_initiator_inputs_contributed (c : NegotiationContext) :
    List TxInputWithPrevOutput :=
  (c.inputs.filter (fun p => !(is_valid_for_initiator p.1))).map (fun p => p.2)

/-- `NegotiationContext::initiator_outputs_contributed`. -/
def NegotiationContext.initiator_outputs_contributed (c : NegotiationContext) :
    List BTxOut :=
  (c.outputs.filter (fun p => is_valid_for_initiator p.1)).map (fun p => p.2)

/-- `NegotiationContext::non_initiator_outputs_contributed`. -/
def NegotiationContext.non_initiator_outputs_contributed (c : NegotiationContext) :
    List BTxOut :=
  (c.outputs.filter (fun p => !(is_valid_for_initiator p.1))).map (fun p => p.2)

/-- The `non_initiator_fees_contributed` binding of
`NegotiationContext::build_transaction`: the non-initiator's input value
minus its output value, as wrapping u64 subtraction. -/
def NegotiationContext.non_initiator_fees_contributed (c : NegotiationContext) : Nat :=
  u64_wrapping_sub
    ((c.non_initiator_inputs_contributed.map (fun p => p.prev_output.value)).sum)
    ((c.non_initiator_outputs_contributed.map (fun o => o.value)).sum)

/-- The `non_initiator_contribution_weight` binding of
`NegotiationContext::build_transaction`. -/
def NegotiationContext.non_initiator_contribution_weight (c : NegotiationContext) : Nat :=
  c.non_initiator_inputs_contributed.length * INPUT_WEIGHT +
    c.non_initiator_outputs_contributed.length * OUTPUT_WEIGHT

/-- The `initiator_fees_contributed` binding of
`NegotiationContext::build_transaction`. -/
def NegotiationContext.initiator_fees_contributed (c : NegotiationContext) : Nat :=
  u64_wrapping_sub
    ((c.initiator_inputs_contributed.map (fun p => p.prev_output.value)).sum)
    ((c.initiator_outputs_contributed.map (fun o => o.value)).sum)

/-- The `initiator_contribution_weight` binding of
`NegotiationContext::build_transaction`. -/
def NegotiationContext.initiator_contribution_weight (c : NegotiationContext) : Nat :=
  c.initiator_inputs_contributed.length * INPUT_WEIGHT +
    c.initiator_outputs_contributed.length * OUTPUT_WEIGHT

/-- The `tx_to_validate` binding of `NegotiationContext::build_transaction`:
version and locktime from the base transaction, the accumulated inputs and
outputs in map iteration order. -/
def NegotiationContext.tx_to_validate (c : NegotiationContext) : BTransaction :=
  { version := c.base_tx.version, lock_time := c.base_tx.lock_time,
    input := c.inputs.map (fun p => p.2.input),
    output := c.outputs.map (fun p => p.2) }

/-- `NegotiationContext::build_transaction` (consumes the context). -/
def NegotiationContext.build_transaction (c : NegotiationContext) :
    Except AbortReason BTransaction :=
  let tx_to_validate := c.tx_to_validate
  let total_input_amount := ((c.inputs.map (fun p => p.2.prev_output.value)).sum) % U64_MOD
  let total_output_amount := ((tx_to_validate.output.map (fun o => o.value)).sum) % U64_MOD
  if total_input_amount < total_output_amount then
    .error .OutputsExceedInputs
  else if MAX_INPUTS_OUTPUTS_COUNT < c.inputs.length
      || MAX_INPUTS_OUTPUTS_COUNT < c.outputs.length then
    .error .ExceededNumberOfInputsOrOutputs
  else if MAX_STANDARD_TX_WEIGHT < tx_to_validate.weight then
    .error .TransactionTooLarge
  else if c.holder_is_initiator then
    let required_non_initiator_contribution_fee :=
      c.feerate_sat_per_kw * 1000 / c.non_initiator_contribution_weight
    if c.non_initiator_fees_contributed < required_non_initiator_contribution_fee then
      .error .InsufficientFees
    else
      .ok tx_to_validate
  else
    let required_initiator_contribution_fee :=
      c.feerate_sat_per_kw * 1000 / c.initiator_contribution_weight
    let tx_common_fields_weight := (4 + 4 + 1 + 1) * WITNESS_SCALE_FACTOR + 2
    let tx_common_fields_fee := c.feerate_sat_per_kw * 1000 / tx_common_fields_weight
    if c.initiator_fees_contributed
        < tx_common_fields_fee + required_initiator_contribution_fee then
      .error .InsufficientFees
    else
      .ok tx_to_validate

/-- `enum StateMachine` from interactivetxs.rs (the final, symmetric
Local/Remote draft; `Indeterminate` is the `mem::take` placeholder). -/
inductive StateMachine where
  | Indeterminate
  | LocalChange (ctx : NegotiationContext)
  | RemoteChange (ctx : NegotiationContext)
  | LocalTxComplete (ctx : NegotiationContext)
  | RemoteTxComplete (ctx : NegotiationContext)
  | NegotiationComplete (tx : BTransaction)
  | NegotiationAborted (reason : AbortReason)
  deriving DecidableEq, Repr

/-- `StateMachine::new`. -/
def StateMachine.new (feerate_sat_per_kw : Nat) (require_confirmed_inputs : Bool)
    (is_initiator : Bool) (base_tx : BTransaction)
    (did_send_tx_signatures : Bool) : StateMachine :=
  let context : NegotiationContext :=
    { require_confirmed_inputs, base_tx, did_send_tx_signatures,
      holder_is_initiator := is_initiator,
      received_tx_add_input_count := 0, received_tx_add_output_count := 0,
      inputs := [], prevtx_outpoints := [], outputs := [],
      feerate_sat_per_kw }
  if is_initiator then .RemoteChange context else .LocalChange context

/-- `StateMachine::receive_tx_add_input`: legal from `LocalChange` and
`LocalTxComplete`, lands in `RemoteChange`; every other state yields
`UnexpectedCounterpartyMessage`. -/
def StateMachine.receive_tx_add_input (sm : StateMachine) (msg : msgs.TxAddInput)
    (confirmed : Bool) : Except AbortReason StateMachine :=
  match sm with
  | .LocalChange c =>
      match c.receive_tx_add_input msg confirmed with
      | (none, c') => .ok (.RemoteChange c')
      | (some r, _) => .error r
  | .LocalTxComplete c =>
      match c.receive_tx_add_input msg confirmed with
      | (none, c') => .ok (.RemoteChange c')
      | (some r, _) => .error r
  | _ => .error .UnexpectedCounterpartyMessage

/-- `StateMachine::receive_tx_add_output`. -/
def StateMachine.receive_tx_add_output (sm : StateMachine)
    (msg : msgs.TxAddOutput) : Except AbortReason StateMachine :=
  match sm with
  | .LocalChange c =>
      match c.receive_tx_add_output msg.serial_id
          { value := msg.sats, script_pubkey := msg.script } with
      | (none, c') => .ok (.RemoteChange c')
      | (some r, _) => .error r
  | .LocalTxComplete c =>
      match c.receive_tx_add_output msg.serial_id
          { value := msg.sats, script_pubkey := msg.script } with
      | (none, c') => .ok (.RemoteChange c')
      | (some r, _) => .error r
  | _ => .error .UnexpectedCounterpartyMessage

/-- `StateMachine::receive_tx_remove_input`. -/
def StateMachine.receive_tx_remove_input (sm : StateMachine)
    (msg : msgs.TxRemoveInput) : Except AbortReason StateMachine :=
  match sm with
  | .LocalChange c =>
      match c.receive_tx_remove_input msg.serial_id with
      | (none, c') => .ok (.RemoteChange c')
      | (some r, _) => .error r
  | .LocalTxComplete c =>
      match c.receive_tx_remove_input msg.serial_id with
      | (none, c') => .ok (.RemoteChange c')
      | (some r, _) => .error r
  | _ => .error .UnexpectedCounterpartyMessage

/-- `StateMachine::receive_tx_remove_output`. -/
def StateMachine.receive_tx_remove_output (sm : StateMachine)
    (msg : msgs.TxRemoveOutput) : Except AbortReason StateMachine :=
  match sm with
  | .LocalChange c =>
      match c.receive_tx_remove_output msg.serial_id with
      | (none, c') => .ok (.RemoteChange c')
      | (some r, _) => .error r
  | .LocalTxComplete c =>
      match c.receive_tx_remove_output msg.serial_id with
      | (none, c') => .ok (.RemoteChange c')
      | (some r, _) => .error r
  | _ => .error .UnexpectedCounterpartyMessage

/-- `StateMachine::send_tx_add_input`: legal from `RemoteChange` and
`RemoteTxComplete`, lands in `LocalChange`. -/
def StateMachine.send_tx_add_input (sm : StateMachine)
    (msg : msgs.TxAddInput) : Except AbortReason StateMachine :=
  match sm with
  | .RemoteChange c =>
      match c.send_tx_add_input msg with
      | (none, c') => .ok (.LocalChange c')
      | (some r, _) => .error r
  | .RemoteTxComplete c =>
      match c.send_tx_add_input msg with
      | (none, c') => .ok (.LocalChange c')
      | (some r, _) => .error r
  | _ => .error .UnexpectedCounterpartyMessage

/-- `StateMachine::send_tx_add_output`. -/
def StateMachine.send_tx_add_output (sm : StateMachine)
    (msg : msgs.TxAddOutput) : Except AbortReason StateMachine :=
  match sm with
  | .RemoteChange c =>
      .ok (.LocalChange (c.send_tx_add_output msg.serial_id
        { value := msg.sats, script_pubkey := msg.script }))
  | .RemoteTxComplete c =>
      .ok (.LocalChange (c.send_tx_add_output msg.serial_id
        { value := msg.sats, script_pubkey := msg.script }))
  | _ => .error .UnexpectedCounterpartyMessage

/-- `StateMachine::send_tx_remove_input`. -/
def StateMachine.send_tx_remove_input (sm : StateMachine)
    (msg : msgs.TxRemoveInput) : Except AbortReason StateMachine :=
  match sm with
  | .RemoteChange c => .ok (.LocalChange (c.send_tx_remove_input msg.serial_id))
  | .RemoteTxComplete c => .ok (.LocalChange (c.send_tx_remove_input msg.serial_id))
  | _ => .error .UnexpectedCounterpartyMessage

/-- `StateMachine::send_tx_remove_output`. -/
def StateMachine.send_tx_remove_output (sm : StateMachine)
    (msg : msgs.TxRemoveOutput) : Except AbortReason StateMachine :=
  match sm with
  | .RemoteChange c => .ok (.LocalChange (c.send_tx_remove_output msg.serial_id))
  | .RemoteTxComplete c => .ok (.LocalChange (c.send_tx_remove_output msg.serial_id))
  | _ => .error .UnexpectedCounterpartyMessage

/-- `StateMachine::receive_tx_complete`: `LocalChange → RemoteTxComplete`;
`LocalTxComplete → NegotiationComplete` via `build_transaction`. -/
def StateMachine.receive_tx_complete (sm : StateMachine)
    (_msg : msgs.TxComplete) : Except AbortReason StateMachine :=
  match sm with
  | .LocalChange c => .ok (.RemoteTxComplete c)
  | .LocalTxComplete c =>
      match c.build_transaction with
      | .ok tx => .ok (.NegotiationComplete tx)
      | .error r => .error r
  | _ => .error .UnexpectedCounterpartyMessage

/-- `StateMachine::send_tx_complete`: `RemoteChange → LocalTxComplete`;
`RemoteTxComplete → NegotiationComplete` via `build_transaction`. -/
def StateMachine.send_tx_complete (sm : StateMachine)
    (_msg : msgs.TxComplete) : Except AbortReason StateMachine :=
  match sm with
  | .RemoteChange c => .ok (.LocalTxComplete c)
  | .RemoteTxComplete c =>
      match c.build_transaction with
      | .ok tx => .ok (.NegotiationComplete tx)
      | .error r => .error r
  | _ => .error .UnexpectedCounterpartyMessage

/-- `struct InteractiveTxConstructor`. The entropy source is threaded as an
explicit `rand_u64` argument to each operation that generates a local
serial id (one call to `get_secure_random_bytes` per generated id). -/
structure InteractiveTxConstructor where
  state_machine : StateMachine
  channel_id : Nat
  is_initiator : Bool
  inputs_to_contribute : List TxInputWithPrevOutput
  outputs_to_contribute : List BTxOut
  deriving DecidableEq, Repr

/-- `enum InteractiveTxMessageSend`. -/
inductive InteractiveTxMessageSend where
  | TxAddInput (msg : msgs.TxAddInput)
  | TxAddOutput (msg : msgs.TxAddOutput)
  | TxComplete (msg : msgs.TxComplete)
  deriving DecidableEq, Repr

/-- `Vec::pop`: removes and returns the last element. -/
def vecPop {α : Type} : List α → Option (α × List α)
  | [] => none
  | x :: xs =>
      match vecPop xs with
      | none => some (x, ([] : List α))
      | some (y, ys) => some (y, x :: ys)

/-- `InteractiveTxConstructor::generate_local_serial_id`: interpret 8
entropy bytes as a big-endian u64 and flip the low bit if its parity does
not match the holder's role. -/
def generate_local_serial_id (is_initiator : Bool) (rand_u64 : Nat) : Nat :=
  if is_valid_for_initiator rand_u64 != is_initiator then rand_u64 ^^^ 1
  else rand_u64

/-- The placeholder `prevtx` that `generate_message_send` puts into every
outbound `TxAddInput` (the source's `TODO: Needs real transaction and
prevout`): version 0, zero locktime, no inputs, no outputs. -/
def placeholder_prevtx : BTransaction :=
  { version := 0, lock_time := 0, input := [], output := [] }

/-- `Sequence::ENABLE_RBF_NO_LOCKTIME`. -/
def ENABLE_RBF_NO_LOCKTIME : Nat := 0xFFFFFFFD

/-- `InteractiveTxConstructor::generate_message_send` (the driver's local
step): pop a pending input, else a pending output, else send
`tx_complete`; on a state-machine error, park the machine in
`NegotiationAborted` and fail. -/
def InteractiveTxConstructor.generate_message_send
    (c : InteractiveTxConstructor) (rand_u64 : Nat) :
    Except Unit InteractiveTxMessageSend × InteractiveTxConstructor :=
  match vecPop c.inputs_to_contribute with
  | some (_input_with_prevout, rest) =>
      let msg : msgs.TxAddInput :=
        { channel_id := c.channel_id,
          serial_id := generate_local_serial_id c.is_initiator rand_u64,
          prevtx := placeholder_prevtx,
          prevtx_out := 0,
          sequence := ENABLE_RBF_NO_LOCKTIME }
      let c := { c with inputs_to_contribute := rest }
      match c.state_machine.send_tx_add_input msg with
      | .ok sm => (.ok (.TxAddInput msg), { c with state_machine := sm })
      | .error r => (.error (), { c with state_machine := .NegotiationAborted r })
  | none =>
      match vecPop c.outputs_to_contribute with
      | some (output, rest) =>
          let msg : msgs.TxAddOutput :=
            { channel_id := c.channel_id,
              serial_id := generate_local_serial_id c.is_initiator rand_u64,
              sats := output.value,
              script := output.script_pubkey }
          let c := { c with outputs_to_contribute := rest }
          match c.state_machine.send_tx_add_output msg with
          | .ok sm => (.ok (.TxAddOutput msg), { c with state_machine := sm })
          | .error r => (.error (), { c with state_machine := .NegotiationAborted r })
      | none =>
          let msg : msgs.TxComplete := { channel_id := c.channel_id }
          match c.state_machine.send_tx_complete msg with
          | .ok sm => (.ok (.TxComplete msg), { c with state_machine := sm })
          | .error r => (.error (), { c with state_machine := .NegotiationAborted r })

/-- `InteractiveTxConstructor::new`. If the holder is the initiator the
opening local step runs immediately and its result is `.unwrap()`ed; the
embedding surfaces that unwrap of a failed step as `.error ()` (a Rust
abort). -/
def InteractiveTxConstructor.new (channel_id : Nat) (feerate_sat_per_kw : Nat)
    (require_confirmed_inputs : Bool) (is_initiator : Bool)
    (base_tx : BTransaction) (did_send_tx_signatures : Bool)
    (inputs_to_contribute : List TxInputWithPrevOutput)
    (outputs_to_contribute : List BTxOut) (rand_u64 : Nat) :
    Except Unit (InteractiveTxConstructor × Option InteractiveTxMessageSend) :=
  let state_machine := StateMachine.new feerate_sat_per_kw
    require_confirmed_inputs is_initiator base_tx did_send_tx_signatures
  let c : InteractiveTxConstructor :=
    { state_machine, channel_id, is_initiator,
      inputs_to_contribute, outputs_to_contribute }
  if is_initiator then
    match c.generate_message_send rand_u64 with
    | (.ok msg, c') => .ok (c', some msg)
    | (.error _, _) => .error ()
  else
    .ok (c, none)

/-- Public `InteractiveTxConstructor::receive_tx_add_input`: drive the
receive event, then the local step; any abort parks the machine in
`NegotiationAborted`. -/
def InteractiveTxConstructor.receive_tx_add_input
    (c : InteractiveTxConstructor) (msg : msgs.TxAddInput) (confirmed : Bool)
    (rand_u64 : Nat) :
    Except Unit InteractiveTxMessageSend × InteractiveTxConstructor :=
  match c.state_machine.receive_tx_add_input msg confirmed with
  | .ok sm =>
      InteractiveTxConstructor.generate_message_send
        { c with state_machine := sm } rand_u64
  | .error r => (.error (), { c with state_machine := .NegotiationAborted r })

/-- Public `InteractiveTxConstructor::receive_tx_remove_input`. -/
def InteractiveTxConstructor.receive_tx_remove_input
    (c : InteractiveTxConstructor) (msg : msgs.TxRemoveInput) (rand_u64 : Nat) :
    Except Unit InteractiveTxMessageSend × InteractiveTxConstructor :=
  match c.state_machine.receive_tx_remove_input msg with
  | .ok sm =>
      InteractiveTxConstructor.generate_message_send
        { c with state_machine := sm } rand_u64
  | .error r => (.error (), { c with state_machine := .NegotiationAborted r })

/-- Public `InteractiveTxConstructor::receive_tx_add_output`. -/
def InteractiveTxConstructor.receive_tx_add_output
    (c : InteractiveTxConstructor) (msg : msgs.TxAddOutput) (rand_u64 : Nat) :
    Except Unit InteractiveTxMessageSend × InteractiveTxConstructor :=
  match c.state_machine.receive_tx_add_output msg with
  | .ok sm =>
      InteractiveTxConstructor.generate_message_send
        { c with state_machine := sm } rand_u64
  | .error r => (.error (), { c with state_machine := .NegotiationAborted r })

/-- Public `InteractiveTxConstructor::receive_tx_remove_output`. -/
def InteractiveTxConstructor.receive_tx_remove_output
    (c : InteractiveTxConstructor) (msg : msgs.TxRemoveOutput) (rand_u64 : Nat) :
    Except Unit InteractiveTxMessageSend × InteractiveTxConstructor :=
  match c.state_machine.receive_tx_remove_output msg with
  | .ok sm =>
      InteractiveTxConstructor.generate_message_send
        { c with state_machine := sm } rand_u64
  | .error r => (.error (), { c with state_machine := .NegotiationAborted r })

/-- Public `InteractiveTxConstructor::receive_tx_complete`. Mirrors the
source exactly: when the machine lands in `NegotiationComplete` the call
returns `Ok(None)` — the built transaction is not surfaced (the source's
`TODO: Expose built transaction`). -/
def InteractiveTxConstructor.receive_tx_complete
    (c : InteractiveTxConstructor) (msg : msgs.TxComplete) (rand_u64 : Nat) :
    Except Unit (Option InteractiveTxMessageSend) × InteractiveTxConstructor :=
  match c.state_machine.receive_tx_complete msg with
  | .error r => (.error (), { c with state_machine := .NegotiationAborted r })
  | .ok sm =>
      let c := { c with state_machine := sm }
      match sm with
      | .RemoteTxComplete _ =>
          match c.generate_message_send rand_u64 with
          | (.ok m, c') => (.ok (some m), c')
          | (.error _, c') => (.error (), c')
      | .NegotiationComplete _ => (.ok none, c)
      | _ => (.error (), c)

/-- The eight change events (four message kinds, each observed as sent or
received), for stating turn-taking uniformly. -/
inductive ChangeEvent where
  | recvAddInput (msg : msgs.TxAddInput) (confirmed : Bool)
  | recvAddOutput (msg : msgs.TxAddOutput)
  | recvRemoveInput (msg : msgs.TxRemoveInput)
  | recvRemoveOutput (msg : msgs.TxRemoveOutput)
  | sendAddInput (msg : msgs.TxAddInput)
  | sendAddOutput (msg : msgs.TxAddOutput)
  | sendRemoveInput (msg : msgs.TxRemoveInput)
  | sendRemoveOutput (msg : msgs.TxRemoveOutput)
  deriving DecidableEq, Repr

/-- Whether a change event is a receive event. -/
def ChangeEvent.isReceive : ChangeEvent → Bool
  | .recvAddInput _ _ => true
  | .recvAddOutput _ => true
  | .recvRemoveInput _ => true
  | .recvRemoveOutput _ => true
  | _ => false

/-- Dispatch a change event to the corresponding `StateMachine` method. -/
def StateMachine.applyChange (sm : StateMachine) :
    ChangeEvent → Except AbortReason StateMachine
  | .recvAddInput m conf => sm.receive_tx_add_input m conf
  | .recvAddOutput m => sm.receive_tx_add_output m
  | .recvRemoveInput m => sm.receive_tx_remove_input m
  | .recvRemoveOutput m => sm.receive_tx_remove_output m
  | .sendAddInput m => sm.send_tx_add_input m
  | .sendAddOutput m => sm.send_tx_add_output m
  | .sendRemoveInput m => sm.send_tx_remove_input m
  | .sendRemoveOutput m => sm.send_tx_remove_output m

/-- States from which a receive change event is legal. -/
def StateMachine.isLocalSource : StateMachine → Bool
  | .LocalChange _ => true
  | .LocalTxComplete _ => true
  | _ => false

/-- States from which a send change event is legal. -/
def StateMachine.isRemoteSource : StateMachine → Bool
  | .RemoteChange _ => true
  | .RemoteTxComplete _ => true
  | _ => false

/-- Recognizer for `RemoteChange`. -/
def StateMachine.isRemoteChangeState : StateMachine → Bool
  | .RemoteChange _ => true
  | _ => false

/-- Recognizer for `LocalChange`. -/
def StateMachine.isLocalChangeState : StateMachine → Bool
  | .LocalChange _ => true
  | _ => false

/-- Recognizer for `NegotiationAborted`. -/
def StateMachine.isAborted : StateMachine → Bool
  | .NegotiationAborted _ => true
  | _ => false

/-- The combined prevtx checks of `receive_tx_add_input` (steps 4-6 of the
spec): missing referenced output, non-witness-program script, or an
already-contributed outpoint; all three abort with `PrevTxOutInvalid`. -/
def prev_out_check_fails (c : NegotiationContext) (msg : msgs.TxAddInput) : Bool :=
  match msg.prevtx.output[msg.prevtx_out]? with
  | none => true
  | some t =>
      !t.script_pubkey.is_witness_program ||
        decide (({ txid := msg.prevtx.txid, vout := msg.prevtx_out } : BOutPoint)
          ∈ c.prevtx_outpoints)

/-- Invariant 2 of the spec: `prevtx_outpoints` equals (as a set) the
previous outpoints of the entries of the `inputs` map. -/
def prevtxOutpointsInv (c : NegotiationContext) : Prop :=
  ∀ o : BOutPoint,
    o ∈ c.prevtx_outpoints ↔ o ∈ c.inputs.map (fun p => p.2.input.previous_output)

/-- Claim-side definition, following the spec's words for the fee-share
weight: "Σ input-weights + Σ (8 + serialized-script-len) × 4 over
counterparty outputs" — for comparison with the source's
`non_initiator_contribution_weight` expression. -/
def claimed_non_initiator_contribution_weight (c : NegotiationContext) : Nat :=
  c.non_initiator_inputs_contributed.length * INPUT_WEIGHT +
    (c.non_initiator_outputs_contributed.map
      (fun o => (8 + o.script_pubkey.length) * 4)).sum

/-- Rewrite every output's script while keeping serial ids and values:
used to state that the source's fee-share weight ignores scripts. -/
def mapScripts (f : Nat → Script → Script) (outs : List (Nat × BTxOut)) :
    List (Nat × BTxOut) :=
  outs.map (fun p => (p.1, { p.2 with script_pubkey := f p.1 p.2.script_pubkey }))

/-- Claim-side definition, following the spec's words for the counterparty's
actual fee: "(its inputs value) − (its outputs value), computed with
saturating subtraction" (`Nat` subtraction truncates at zero, i.e.
saturates) — for comparison with the source's wrapping expression. -/
def NegotiationContext.non_initiator_fees_saturating (c : NegotiationContext) : Nat :=
  ((c.non_initiator_inputs_contributed.map (fun p => p.prev_output.value)).sum) -
    ((c.non_initiator_outputs_contributed.map (fun o => o.value)).sum)

/-- Run a list of `receive_tx_add_input` events, requiring every one to
succeed. -/
def runRecvAddInputs :
    NegotiationContext → List (msgs.TxAddInput × Bool) → Option NegotiationContext
  | c, [] => some c
  | c, (m, conf) :: rest =>
      match c.receive_tx_add_input m conf with
      | (none, c') => runRecvAddInputs c' rest
      | (some _, _) => none

/-- Run a list of `receive_tx_remove_input` events, requiring every one to
succeed. -/
def runRecvRemoveInputs :
    NegotiationContext → List Nat → Option NegotiationContext
  | c, [] => some c
  | c, sid :: rest =>
      match c.receive_tx_remove_input sid with
      | (none, c') => runRecvRemoveInputs c' rest
      | (some _, _) => none

/-- Run a list of `receive_tx_add_output` events, requiring every one to
succeed. -/
def runRecvAddOutputs :
    NegotiationContext → List (Nat × BTxOut) → Option NegotiationContext
  | c, [] => some c
  | c, (sid, out) :: rest =>
      match c.receive_tx_add_output sid out with
      | (none, c') => runRecvAddOutputs c' rest
      | (some _, _) => none

/-- Run a list of `receive_tx_remove_output` events, requiring every one to
succeed. -/
def runRecvRemoveOutputs :
    NegotiationContext → List Nat → Option NegotiationContext
  | c, [] => some c
  | c, sid :: rest =>
      match c.receive_tx_remove_output sid with
      | (none, c') => runRecvRemoveOutputs c' rest
      | (some _, _) => none

/-! Concrete data for counterexamples and witnesses. -/

/-- A P2WPKH script: version byte 0, 20-byte program. -/
def p2wpkh_script : Script := 0 :: 20 :: List.replicate 20 7

/-- A P2WSH script: version byte 0, 32-byte program. -/
def p2wsh_script : Script := 0 :: 32 :: List.replicate 32 9

/-- A plain version-2 base transaction with no inputs or outputs. -/
def base_tx_v2 : BTransaction :=
  { version := 2, lock_time := 0, input := [], output := [] }

/-- A previous transaction with a single P2WPKH output of the given value;
`marker` varies the locktime so distinct markers give distinct txids. -/
def mkPrevTx (value : Nat) (marker : Nat) : BTransaction :=
  { version := 2, lock_time := marker, input := [],
    output := [{ value := value, script_pubkey := p2wpkh_script }] }

/-- A contributed input whose previous output is a P2WPKH output of the
given value, with outpoint txid `[marker]`. -/
def mkInput (value : Nat) (marker : Nat) : TxInputWithPrevOutput :=
  { input := { previous_output := { txid := [marker], vout := 0 }, sequence := 1 },
    prev_output := { value := value, script_pubkey := p2wpkh_script } }

/-- A context with the given role, feerate, inputs and outputs; the
outpoint set mirrors the inputs and the counters start at zero. -/
def mkCtx (init : Bool) (feerate : Nat)
    (ins : List (Nat × TxInputWithPrevOutput)) (outs : List (Nat × BTxOut)) :
    NegotiationContext :=
  { require_confirmed_inputs := false, holder_is_initiator := init,
    received_tx_add_input_count := 0, received_tx_add_output_count := 0,
    inputs := ins, prevtx_outpoints := ins.map (fun p => p.2.input.previous_output),
    outputs := outs, base_tx := base_tx_v2, did_send_tx_signatures := false,
    feerate_sat_per_kw := feerate }

/-- C2 counterexample context: initiator holder, feerate 1; the
counterparty (non-initiator, odd serial ids) contributed an 8-sat input and
a 4-sat output with a 34-byte P2WSH script. -/
def ctxC2 : NegotiationContext :=
  mkCtx true 1 [(1, mkInput 8 0)] [(3, { value := 4, script_pubkey := p2wsh_script })]

/-- C3 failing-input context: initiator holder, feerate 0; the counterparty
(non-initiator) contributed a 50-sat output and no inputs, while the holder
contributed a 100-sat input, so the transaction totals balance although the
counterparty's own contributions do not. -/
def ctxC3 : NegotiationContext :=
  mkCtx true 0 [(2, mkInput 100 0)] [(1, { value := 50, script_pubkey := p2wpkh_script })]

/-- The transaction `build_transaction ctxC3` assembles. -/
def ctxC3_tx : BTransaction :=
  { version := 2, lock_time := 0,
    input := [{ previous_output := { txid := [0], vout := 0 }, sequence := 1 }],
    output := [{ value := 50, script_pubkey := p2wpkh_script }] }

/-- C4 scenario: the received `tx_add_input` of the minimum happy path
(initiator-parity serial id 2, valid witness prevout, RBF sequence). -/
def c4_addmsg : msgs.TxAddInput :=
  { channel_id := 5, serial_id := 2, prevtx := mkPrevTx 100 0, prevtx_out := 0,
    sequence := 1 }

/-- C4 scenario: the freshly constructed non-initiator driver. -/
def c4_c0 : InteractiveTxConstructor :=
  { state_machine := StateMachine.new 0 false false base_tx_v2 false,
    channel_id := 5, is_initiator := false,
    inputs_to_contribute := [], outputs_to_contribute := [] }

/-- C4 scenario: the driver after handling the `tx_add_input` (it replies
`tx_complete`). -/
def c4_step1 :
    Except Unit InteractiveTxMessageSend × InteractiveTxConstructor :=
  c4_c0.receive_tx_add_input c4_addmsg true 0

/-- C4 scenario: the driver's result on the counterparty's `tx_complete`,
the finalizing transition. -/
def c4_step2 :
    Except Unit (Option InteractiveTxMessageSend) × InteractiveTxConstructor :=
  c4_step1.2.receive_tx_complete { channel_id := 5 } 0

/-- The transaction assembled by the C4 scenario. -/
def c4_tx : BTransaction :=
  { version := 2, lock_time := 0,
    input := [{ previous_output := { txid := (mkPrevTx 100 0).txid, vout := 0 },
                sequence := 1 }],
    output := [] }

/-- C5 counterexample context: one contributed input with outpoint
`([0], 0)`, mirrored in `prevtx_outpoints`. -/
def ctxC5 : NegotiationContext := mkCtx false 0 [(0, mkInput 7 0)] []

/-- C8 context: initiator holder, feerate 1; the counterparty
(non-initiator) contributed a 50-sat output and no inputs; the holder
contributed a 1000-sat input. -/
def ctxC8 : NegotiationContext :=
  mkCtx true 1 [(2, mkInput 1000 0)] [(1, { value := 50, script_pubkey := p2wpkh_script })]

/-- The transaction `build_transaction ctxC8` assembles. -/
def ctxC8_tx : BTransaction :=
  { version := 2, lock_time := 0,
    input := [{ previous_output := { txid := [0], vout := 0 }, sequence := 1 }],
    output := [{ value := 50, script_pubkey := p2wpkh_script }] }

/-- A pending local input contribution (for C6/C9 scenarios). -/
def dummy_input_contribution : TxInputWithPrevOutput := mkInput 1 0

/-- A constructor sitting in `RemoteChange` with one pending local input
contribution. -/
def c6_cons : InteractiveTxConstructor :=
  { state_machine := StateMachine.new 0 false true base_tx_v2 false,
    channel_id := 0, is_initiator := true,
    inputs_to_contribute := [dummy_input_contribution], outputs_to_contribute := [] }

/-- C10 witness context: empty non-initiator context. -/
def ctxW : NegotiationContext := mkCtx false 0 [] []

/-- C10 witness message: a valid `tx_add_input` with initiator-parity
serial id 2. -/
def msgW : msgs.TxAddInput :=
  { channel_id := 0, serial_id := 2, prevtx := mkPrevTx 100 0, prevtx_out := 0,
    sequence := 1 }

/-- C10 witness: the context after receiving `msgW`. -/
def ctxW1 : NegotiationContext := (ctxW.receive_tx_add_input msgW true).2

/-- C9 witness constructor: an initiator driver in `RemoteChange` with no
pending contributions. -/
def c9_cons : InteractiveTxConstructor :=
  { state_machine := StateMachine.new 2 false true base_tx_v2 false,
    channel_id := 1, is_initiator := true,
    inputs_to_contribute := [], outputs_to_contribute := [] }

/-- The negotiation context `c9_cons` starts from. -/
def c9_ctx : NegotiationContext :=
  { require_confirmed_inputs := false, base_tx := base_tx_v2,
    did_send_tx_signatures := false, holder_is_initiator := true,
    received_tx_add_input_count := 0, received_tx_add_output_count := 0,
    inputs := [], prevtx_outpoints := [], outputs := [],
    feerate_sat_per_kw := 2 }

/-!  Theorems.  -/

/-- `Vec::pop` on a non-empty vector yields an element and the rest. -/
theorem vecPop_cons_isSome {α : Type} (x : α) (xs : List α) :
    ∃ y ys, vecPop (x :: xs) = some (y, ys) := by
  induction xs generalizing x with
  | nil => exact ⟨x, [], rfl⟩
  | cons b bs ih =>
      obtain ⟨y, ys, h⟩ := ih b
      refine ⟨y, x :: ys, ?_⟩
      have hstep : vecPop (x :: b :: bs) =
          match vecPop (b :: bs) with
          | none => some (x, ([] : List α))
          | some (y, ys) => some (y, x :: ys) := rfl
      rw [hstep, h]

/-- Claim C3: `build_transaction` compares the transaction's total input
value with its total output value, not the counterparty's own
contributions: on `ctxC3` the counterparty (the non-initiator) contributed
strictly more output value than input value, yet `build_transaction`
succeeds instead of returning `OutputsExceedInputs`. -/
theorem balance_check_compares_totals :
    ctxC3.build_transaction = .ok ctxC3_tx ∧
    (ctxC3.non_initiator_inputs_contributed.map (fun p => p.prev_output.value)).sum
      < (ctxC3.non_initiator_outputs_contributed.map (fun o => o.value)).sum := by
  exact ⟨rfl, by decide⟩

/-- Claim C4: the finalizing `receive_tx_complete` of the minimum happy
path returns `Ok(None)` — no transaction is surfaced to the caller — even
though the machine lands in `NegotiationComplete` with the built
transaction. -/
theorem finalizing_receive_returns_no_transaction :
    InteractiveTxConstructor.new 5 0 false false base_tx_v2 false [] [] 0
      = .ok (c4_c0, none) ∧
    c4_step1.1 = .ok (.TxComplete { channel_id := 5 }) ∧
    c4_step2.1 = .ok none ∧
    c4_step2.2.state_machine = .NegotiationComplete c4_tx := by
  exact ⟨rfl, rfl, rfl, rfl⟩

/-- Claim C2, counterexample: on `ctxC2` the fee check fails with
`InsufficientFees` although the counterparty's fee meets the requirement
computed from the claim's script-length-dependent weight, and that claimed
weight differs from the source's count-based weight. -/
theorem fee_weight_script_independent_cex :
    ctxC2.build_transaction = .error .InsufficientFees ∧
    ¬(ctxC2.non_initiator_fees_contributed
        < ctxC2.feerate_sat_per_kw * 1000 / claimed_non_initiator_contribution_weight ctxC2) ∧
    claimed_non_initiator_contribution_weight ctxC2 ≠ ctxC2.non_initiator_contribution_weight := by
  exact ⟨rfl, by decide, by decide⟩

/-- Claim C8, counterexample: on `ctxC8` the counterparty's outputs exceed
its inputs; the fee expression evaluates to `2 ^ 64 - 50` (wrapping), not to
zero as the claimed saturating subtraction would, and `build_transaction`
consequently passes the fee check and succeeds. -/
theorem fees_wrapping_not_saturating_cex :
    (ctxC8.non_initiator_inputs_contributed.map (fun p => p.prev_output.value)).sum
      < (ctxC8.non_initiator_outputs_contributed.map (fun o => o.value)).sum ∧
    ctxC8.non_initiator_fees_contributed = 18446744073709551566 ∧
    ctxC8.non_initiator_fees_saturating = 0 ∧
    0 < ctxC8.feerate_sat_per_kw * 1000 / ctxC8.non_initiator_contribution_weight ∧
    ctxC8.build_transaction = .ok ctxC8_tx := by
  refine ⟨by decide, by decide, by decide, by decide, rfl⟩

/-- Claim C5, counterexample: `ctxC5` satisfies the outpoint-set invariant;
after `send_tx_remove_input` removes its only input, `prevtx_outpoints`
still holds the removed input's outpoint, so the invariant fails. -/
theorem prevtx_outpoints_inv_send_remove_cex :
    prevtxOutpointsInv ctxC5 ∧ ¬ prevtxOutpointsInv (ctxC5.send_tx_remove_input 0) := by
  constructor
  · intro o
    simp [ctxC5, mkCtx, mkInput]
  · intro h
    have h0 := (h { txid := [0], vout := 0 }).mp
    simp [ctxC5, mkCtx, mkInput, NegotiationContext.send_tx_remove_input,
      removeMap] at h0

/-- Claim C9, counterexample: an initiator constructed with one pending
input contribution does not return an opening message; the opening local
step fails (the `.unwrap()` aborts), because the assembled `TxAddInput`
carries the empty placeholder prevtx. -/
theorem new_initiator_with_inputs_cex :
    InteractiveTxConstructor.new 0 0 false true base_tx_v2 false
      [dummy_input_contribution] [] 0 = .error () := rfl

/-- Claim C6: whenever `inputs_to_contribute` is non-empty, the local step
fails and parks the machine in `NegotiationAborted`; from the legal send
states (`RemoteChange` / `RemoteTxComplete`) the abort reason is precisely
`PrevTxOutInvalid`, because every outbound `TxAddInput` is assembled with
the empty `placeholder_prevtx` and `prevtx_out = 0`. A local input
contribution is never sent successfully. -/
theorem local_input_send_always_aborts :
    ∀ (c : InteractiveTxConstructor) (rand_u64 : Nat),
      c.inputs_to_contribute ≠ [] →
      (c.generate_message_send rand_u64).1 = .error () ∧
      (c.generate_message_send rand_u64).2.state_machine.isAborted = true ∧
      (∀ ctx : NegotiationContext,
        c.state_machine = .RemoteChange ctx ∨ c.state_machine = .RemoteTxComplete ctx →
        (c.generate_message_send rand_u64).2.state_machine
          = .NegotiationAborted .PrevTxOutInvalid) := by
  intro c rand h
  match hl : c.inputs_to_contribute with
  | [] => exact absurd hl h
  | x :: xs =>
    obtain ⟨y, ys, hpop⟩ := vecPop_cons_isSome x xs
    cases hsm : c.state_machine <;>
      simp [InteractiveTxConstructor.generate_message_send, hl, hpop, hsm,
        StateMachine.send_tx_add_input, NegotiationContext.send_tx_add_input,
        placeholder_prevtx, StateMachine.isAborted]

/-- Claim C6 witness: a concrete initiator driver in `RemoteChange` with a
pending input contribution aborts its local step with `PrevTxOutInvalid`. -/
theorem local_input_send_always_aborts_witness :
    (c6_cons.generate_message_send 0).1 = .error () ∧
    (c6_cons.generate_message_send 0).2.state_machine
      = .NegotiationAborted .PrevTxOutInvalid := by
  have h := local_input_send_always_aborts c6_cons 0 (by decide)
  exact ⟨h.1, h.2.2 (mkCtx true 0 [] []) (Or.inl rfl)⟩

/-- Claim C2, amended: the counterparty contributed weight used by
`build_transaction`'s fee check is `#inputs × 160 + #outputs × 32` — the
per-output term is the constant `OUTPUT_WEIGHT = 8 × 4 = 32` and does not
depend on any output's script: rewriting all output scripts leaves the
weight unchanged. -/
theorem fee_weight_counts_only :
    ∀ (c : NegotiationContext) (f : Nat → Script → Script),
      c.non_initiator_contribution_weight =
        (c.inputs.filter (fun p => !(is_valid_for_initiator p.1))).length * 160 +
        (c.outputs.filter (fun p => !(is_valid_for_initiator p.1))).length * 32 ∧
      NegotiationContext.non_initiator_contribution_weight
        { c with outputs := mapScripts f c.outputs } =
        c.non_initiator_contribution_weight := by
  intro c f
  constructor
  · simp [NegotiationContext.non_initiator_contribution_weight,
      NegotiationContext.non_initiator_inputs_contributed,
      NegotiationContext.non_initiator_outputs_contributed,
      INPUT_WEIGHT, OUTPUT_WEIGHT, WITNESS_SCALE_FACTOR]
  · have hfil :
        ((mapScripts f c.outputs).filter
          (fun p => !(is_valid_for_initiator p.1))).length
        = (c.outputs.filter (fun p => !(is_valid_for_initiator p.1))).length := by
      simp only [mapScripts]
      rw [List.filter_map, List.length_map]
      rfl
    simp only [NegotiationContext.non_initiator_contribution_weight,
      NegotiationContext.non_initiator_inputs_contributed,
      NegotiationContext.non_initiator_outputs_contributed, List.length_map]
    rw [hfil]

/-- Claim C2 witness: the weight identity and script-independence evaluated
on the concrete context `ctxC2` (appending a byte to every script). -/
theorem fee_weight_counts_only_witness :
    ctxC2.non_initiator_contribution_weight =
      (ctxC2.inputs.filter (fun p => !(is_valid_for_initiator p.1))).length * 160 +
      (ctxC2.outputs.filter (fun p => !(is_valid_for_initiator p.1))).length * 32 ∧
    NegotiationContext.non_initiator_contribution_weight
      { ctxC2 with outputs := mapScripts (fun _ s => s ++ [0]) ctxC2.outputs } =
      ctxC2.non_initiator_contribution_weight :=
  fee_weight_counts_only ctxC2 (fun _ s => s ++ [0])

/-- Claim C8, amended: the counterparty's actual fee in `build_transaction`
is computed with wrapping (mod `2 ^ 64`) u64 subtraction, not saturating
subtraction: when the counterparty's outputs exceed its inputs the value is
`2 ^ 64` minus the deficit — and, being huge, it spuriously satisfies the
fee requirement, so `build_transaction` succeeds. (Debug builds of the
source would abort on the underflow instead.) -/
theorem fees_wrapping_sub :
    ∀ (c : NegotiationContext),
      (c.non_initiator_inputs_contributed.map (fun p => p.prev_output.value)).sum
        < (c.non_initiator_outputs_contributed.map (fun o => o.value)).sum →
      (c.non_initiator_outputs_contributed.map (fun o => o.value)).sum < U64_MOD →
      c.non_initiator_fees_contributed =
        U64_MOD - ((c.non_initiator_outputs_contributed.map (fun o => o.value)).sum
          - (c.non_initiator_inputs_contributed.map (fun p => p.prev_output.value)).sum) ∧
      (c.holder_is_initiator = true →
       ¬(((c.inputs.map (fun p => p.2.prev_output.value)).sum % U64_MOD)
           < ((c.tx_to_validate.output.map (fun o => o.value)).sum % U64_MOD)) →
       c.inputs.length ≤ MAX_INPUTS_OUTPUTS_COUNT →
       c.outputs.length ≤ MAX_INPUTS_OUTPUTS_COUNT →
       c.tx_to_validate.weight ≤ MAX_STANDARD_TX_WEIGHT →
       c.feerate_sat_per_kw * 1000 / c.non_initiator_contribution_weight
         ≤ c.non_initiator_fees_contributed →
       c.build_transaction = .ok c.tx_to_validate) := by
  intro c h1 h2
  have ha : (c.non_initiator_inputs_contributed.map (fun p => p.prev_output.value)).sum
      < U64_MOD := lt_trans h1 h2
  constructor
  · unfold NegotiationContext.non_initiator_fees_contributed u64_wrapping_sub
    rw [Nat.mod_eq_of_lt ha, Nat.mod_eq_of_lt h2]
    rw [Nat.mod_eq_of_lt (by omega)]
    omega
  · intro hinit hbal hlen1 hlen2 hw hfee
    simp only [NegotiationContext.build_transaction]
    rw [if_neg hbal]
    rw [if_neg (by simp [Nat.not_lt.mpr hlen1, Nat.not_lt.mpr hlen2])]
    rw [if_neg (Nat.not_lt.mpr hw)]
    rw [if_pos hinit]
    rw [if_neg (Nat.not_lt.mpr hfee)]

/-- Claim C8 witness: the wrapping result and the resulting spurious
success of `build_transaction`, evaluated on `ctxC8` (counterparty inputs
0 sat, outputs 50 sat, required fee 31 sat). -/
theorem fees_wrapping_sub_witness :
    ctxC8.non_initiator_fees_contributed =
      U64_MOD - ((ctxC8.non_initiator_outputs_contributed.map (fun o => o.value)).sum
        - (ctxC8.non_initiator_inputs_contributed.map (fun p => p.prev_output.value)).sum) ∧
    ctxC8.build_transaction = .ok ctxC8.tx_to_validate := by
  have h := fees_wrapping_sub ctxC8 (by decide) (by decide)
  exact ⟨h.1, h.2 rfl (by decide) (by decide) (by decide) (by decide) (by decide)⟩

/-- Success shape of `receive_tx_add_input`: on success the referenced
output exists, the serial id has counterparty parity and is fresh, the
outpoint was not yet contributed, and the context gains exactly the new
outpoint, the incremented received counter, and the new inputs entry. -/
theorem receive_tx_add_input_success_shape (c : NegotiationContext)
    (msg : msgs.TxAddInput) (confirmed : Bool) (c' : NegotiationContext)
    (h : c.receive_tx_add_input msg confirmed = (none, c')) :
    ∃ t, msg.prevtx.output[msg.prevtx_out]? = some t ∧
      c.is_valid_counterparty_serial_id msg.serial_id = true ∧
      findMap c.inputs msg.serial_id = none ∧
      ({ txid := msg.prevtx.txid, vout := msg.prevtx_out } : BOutPoint) ∉ c.prevtx_outpoints ∧
      c' = { c with
        prevtx_outpoints := c.prevtx_outpoints ++
          [{ txid := msg.prevtx.txid, vout := msg.prevtx_out }],
        received_tx_add_input_count := c.received_tx_add_input_count + 1,
        inputs := c.inputs ++ [(msg.serial_id,
          { input := { previous_output := { txid := msg.prevtx.txid, vout := msg.prevtx_out },
                       sequence := msg.sequence },
            prev_output := t })] } := by
  unfold NegotiationContext.receive_tx_add_input at h
  split at h
  · simp at h
  split at h
  · simp at h
  split at h
  · simp at h
  split at h
  · simp at h
  next t hget =>
  split at h
  · simp at h
  by_cases hmem : ({ txid := msg.prevtx.txid, vout := msg.prevtx_out } : BOutPoint) ∈ c.prevtx_outpoints
  · simp [insertSet, hmem] at h
  · simp only [insertSet, hmem, ite_false, if_false, if_neg] at h
    rw [if_neg (by simp)] at h
    split at h
    · simp at h
    rcases hfind : findMap c.inputs msg.serial_id with _ | old
    · simp only [insertMap, hfind] at h
      injection h with h1 h2
      exact ⟨t, hget, by simpa using ‹¬(!c.is_valid_counterparty_serial_id msg.serial_id) = true›,
        rfl, hmem, h2.symm⟩
    · simp only [insertMap, hfind] at h
      simp at h

/-- Decomposition of a successful `HashMap::remove`: the key occurs once
past a key-free prefix, and the result drops exactly that entry. -/
theorem removeMap_eq_some {α : Type} (m : List (Nat × α)) (k : Nat) (v : α)
    (m' : List (Nat × α)) (h : removeMap m k = (some v, m')) :
    ∃ pre post, m = pre ++ (k, v) :: post ∧ m' = pre ++ post ∧ ∀ p ∈ pre, p.1 ≠ k := by
  induction m generalizing m' with
  | nil => simp [removeMap] at h
  | cons hd tl ih =>
      obtain ⟨k', v'⟩ := hd
      simp only [removeMap] at h
      split at h
      · next hk =>
        injection h with h1 h2
        injection h1 with h1
        exact ⟨[], tl, by simp [hk, h1], by simp [h2], by simp⟩
      · next hk =>
        rcases hr : removeMap tl k with ⟨ro, rest⟩
        rw [hr] at h
        injection h with h1 h2
        have hro : ro = some v := h1
        have hm2 : (k', v') :: rest = m' := h2
        obtain ⟨pre, post, hm, hm', hpre⟩ := ih rest (by rw [hr, hro])
        refine ⟨(k', v') :: pre, post, by simp [hm], by simp [hm', ← hm2], ?_⟩
        intro p hp
        rcases List.mem_cons.mp hp with hp | hp
        · rw [hp]; exact hk
        · exact hpre p hp

/-- A failed `HashMap::remove` leaves the map unchanged. -/
theorem removeMap_eq_none {α : Type} (m : List (Nat × α)) (k : Nat)
    (m' : List (Nat × α)) (h : removeMap m k = (none, m')) : m' = m := by
  induction m generalizing m' with
  | nil => simp [removeMap] at h; simp [h]
  | cons hd tl ih =>
      obtain ⟨k', v'⟩ := hd
      simp only [removeMap] at h
      split at h
      · simp at h
      · rcases hr : removeMap tl k with ⟨ro, rest⟩
        rw [hr] at h
        injection h with h1 h2
        have hro : ro = none := h1
        have hm2 : (k', v') :: rest = m' := h2
        have := ih rest (by rw [hr, hro])
        simp [← hm2, this]

/-- Claim C5, amended: the outpoint-set equality is preserved by every
successful `receive_tx_add_input` and by `receive_tx_remove_input`
(successful or failing, the latter given duplicate-free entry outpoints and
outpoint set, which receive-only histories maintain); it does not survive
the claim's cited spots: `send_tx_remove_input` leaves `prevtx_outpoints`
unchanged even when it removes an input, and the failing
`receive_tx_add_input` paths past the outpoint insertion keep the new
outpoint without a matching entry. -/
theorem prevtx_outpoints_inv_amended :
    (∀ (c : NegotiationContext) (msg : msgs.TxAddInput) (confirmed : Bool)
        (c' : NegotiationContext),
      c.receive_tx_add_input msg confirmed = (none, c') →
      prevtxOutpointsInv c → prevtxOutpointsInv c') ∧
    (∀ (c : NegotiationContext) (sid : Nat),
      (c.inputs.map (fun p => p.2.input.previous_output)).Nodup →
      c.prevtx_outpoints.Nodup →
      prevtxOutpointsInv c →
      prevtxOutpointsInv (c.receive_tx_remove_input sid).2) ∧
    (∀ (c : NegotiationContext) (sid : Nat),
      (c.send_tx_remove_input sid).prevtx_outpoints = c.prevtx_outpoints) := by
  refine ⟨?_, ?_, ?_⟩
  · intro c msg confirmed c' h hinv
    obtain ⟨t, hget, hpar, hfind, hmem, hc'⟩ :=
      receive_tx_add_input_success_shape c msg confirmed c' h
    subst hc'
    intro o
    have hiv := hinv o
    simp only [List.map_append, List.mem_append, List.map_cons, List.map_nil,
      List.mem_singleton, List.mem_cons]
    tauto
  · intro c sid hnodupIn hnodupSet hinv
    unfold NegotiationContext.receive_tx_remove_input
    split
    · exact hinv
    · rcases hr : removeMap c.inputs sid with ⟨ro, m'⟩
      cases ro with
      | none => exact hinv
      | some v =>
          obtain ⟨pre, post, hm, hm', hpre⟩ := removeMap_eq_some _ _ _ _ hr
          intro o
          show o ∈ removeSet c.prevtx_outpoints v.input.previous_output ↔
            o ∈ m'.map (fun p => p.2.input.previous_output)
          have hset := hinv o
          have hnd :
              v.input.previous_output ∉
                (pre.map (fun p => p.2.input.previous_output)) ∧
              v.input.previous_output ∉
                (post.map (fun p => p.2.input.previous_output)) := by
            have hn := hnodupIn
            rw [hm] at hn
            simp only [List.map_append, List.map_cons] at hn
            rcases List.nodup_append.mp hn with ⟨h1, h2, h3⟩
            refine ⟨fun hx => h3 hx (by simp), ?_⟩
            simpa using (List.nodup_cons.mp h2).1
          have lhs_iff :
              o ∈ removeSet c.prevtx_outpoints v.input.previous_output ↔
              (o ≠ v.input.previous_output ∧
                (o ∈ pre.map (fun p => p.2.input.previous_output) ∨
                 o = v.input.previous_output ∨
                 o ∈ post.map (fun p => p.2.input.previous_output))) := by
            rw [removeSet, List.Nodup.mem_erase_iff hnodupSet, hset, hm]
            simp [List.map_append, List.mem_append]
          have rhs_iff :
              (o ∈ m'.map (fun p => p.2.input.previous_output)) ↔
              (o ∈ pre.map (fun p => p.2.input.previous_output) ∨
               o ∈ post.map (fun p => p.2.input.previous_output)) := by
            rw [hm']
            simp [List.map_append, List.mem_append]
          rw [lhs_iff, rhs_iff]
          constructor
          · rintro ⟨hne, hA | hop | hB⟩
            · exact Or.inl hA
            · exact absurd hop hne
            · exact Or.inr hB
          · intro hAB
            have hne : o ≠ v.input.previous_output := by
              rintro rfl
              rcases hAB with hA | hB
              · exact hnd.1 hA
              · exact hnd.2 hB
            rcases hAB with hA | hB
            · exact ⟨hne, Or.inl hA⟩
            · exact ⟨hne, Or.inr (Or.inr hB)⟩
  · intro c sid
    rfl

/-- Claim C5 witness: invariant preservation applied to the concrete
successful receive `ctxW --msgW--> ctxW1`. -/
theorem prevtx_outpoints_inv_amended_witness : prevtxOutpointsInv ctxW1 := by
  refine prevtx_outpoints_inv_amended.1 ctxW msgW true ctxW1 rfl ?_
  intro o
  simp [ctxW, mkCtx]

/-- Claim C7: `receive_tx_add_input` applies its checks in order and
returns the abort reason of the first failing check: serial-id parity, then
`sequence >= 0xFFFFFFFE`, then the confirmation requirement, then the
prevtx checks (missing output / non-witness script / duplicate outpoint,
all `PrevTxOutInvalid`), then the incremented received counter against
4096, then the duplicate serial id; on success the input is inserted into
the `inputs` map. -/
theorem receive_tx_add_input_check_order :
    ∀ (c : NegotiationContext) (msg : msgs.TxAddInput) (confirmed : Bool),
      (c.is_valid_counterparty_serial_id msg.serial_id = false →
        c.receive_tx_add_input msg confirmed = (some .IncorrectSerialIdParity, c)) ∧
      (c.is_valid_counterparty_serial_id msg.serial_id = true →
       0xFFFFFFFE ≤ msg.sequence →
        c.receive_tx_add_input msg confirmed = (some .IncorrectInputSequenceValue, c)) ∧
      (c.is_valid_counterparty_serial_id msg.serial_id = true →
       msg.sequence < 0xFFFFFFFE →
       (c.require_confirmed_inputs && !confirmed) = true →
        c.receive_tx_add_input msg confirmed = (some .InputsNotConfirmed, c)) ∧
      (c.is_valid_counterparty_serial_id msg.serial_id = true →
       msg.sequence < 0xFFFFFFFE →
       (c.require_confirmed_inputs && !confirmed) = false →
       prev_out_check_fails c msg = true →
        c.receive_tx_add_input msg confirmed = (some .PrevTxOutInvalid, c)) ∧
      (c.is_valid_counterparty_serial_id msg.serial_id = true →
       msg.sequence < 0xFFFFFFFE →
       (c.require_confirmed_inputs && !confirmed) = false →
       prev_out_check_fails c msg = false →
       MAX_RECEIVED_TX_ADD_INPUT_COUNT < c.received_tx_add_input_count + 1 →
        (c.receive_tx_add_input msg confirmed).1 = some .ReceivedTooManyTxAddInputs ∧
        (c.receive_tx_add_input msg confirmed).2.received_tx_add_input_count =
          c.received_tx_add_input_count + 1) ∧
      (c.is_valid_counterparty_serial_id msg.serial_id = true →
       msg.sequence < 0xFFFFFFFE →
       (c.require_confirmed_inputs && !confirmed) = false →
       prev_out_check_fails c msg = false →
       c.received_tx_add_input_count + 1 ≤ MAX_RECEIVED_TX_ADD_INPUT_COUNT →
       findMap c.inputs msg.serial_id ≠ none →
        (c.receive_tx_add_input msg confirmed).1 = some .DuplicateSerialId) ∧
      (c.is_valid_counterparty_serial_id msg.serial_id = true →
       msg.sequence < 0xFFFFFFFE →
       (c.require_confirmed_inputs && !confirmed) = false →
       prev_out_check_fails c msg = false →
       c.received_tx_add_input_count + 1 ≤ MAX_RECEIVED_TX_ADD_INPUT_COUNT →
       findMap c.inputs msg.serial_id = none →
        (c.receive_tx_add_input msg confirmed).1 = none ∧
        ∃ t, msg.prevtx.output[msg.prevtx_out]? = some t ∧
          (c.receive_tx_add_input msg confirmed).2.inputs = c.inputs ++
            [(msg.serial_id,
              { input :=
                  { previous_output := { txid := msg.prevtx.txid, vout := msg.prevtx_out },
                    sequence := msg.sequence },
                prev_output := t })]) := by
  intro c msg confirmed
  refine ⟨?_, ?_, ?_, ?_, ?_, ?_, ?_⟩
  · intro h1
    simp [NegotiationContext.receive_tx_add_input, h1]
  · intro h1 h2
    simp [NegotiationContext.receive_tx_add_input, h1, h2]
  · intro h1 h2 h3
    simp [NegotiationContext.receive_tx_add_input, h1, Nat.not_le.mpr h2, h3]
  · intro h1 h2 h3 h4
    rcases hget : msg.prevtx.output[msg.prevtx_out]? with _ | t
    · simp [NegotiationContext.receive_tx_add_input, h1, Nat.not_le.mpr h2, h3, hget]
    · simp only [prev_out_check_fails, hget, Bool.or_eq_true, Bool.not_eq_true',
        decide_eq_true_eq] at h4
      rcases h4 with hw | hmem
      · simp [NegotiationContext.receive_tx_add_input, h1, Nat.not_le.mpr h2, h3, hget, hw]
      · simp [NegotiationContext.receive_tx_add_input, h1, Nat.not_le.mpr h2, h3, hget,
          insertSet, hmem]
  · intro h1 h2 h3 h4 h5
    rcases hget : msg.prevtx.output[msg.prevtx_out]? with _ | t
    · simp [prev_out_check_fails, hget] at h4
    · simp only [prev_out_check_fails, hget, Bool.or_eq_false_iff, Bool.not_eq_false',
        decide_eq_false_iff_not] at h4
      obtain ⟨hw, hmem⟩ := h4
      constructor <;>
        simp [NegotiationContext.receive_tx_add_input, h1, Nat.not_le.mpr h2, h3, hget,
          hw, insertSet, hmem, h5]
  · intro h1 h2 h3 h4 h5 h6
    rcases hget : msg.prevtx.output[msg.prevtx_out]? with _ | t
    · simp [prev_out_check_fails, hget] at h4
    · simp only [prev_out_check_fails, hget, Bool.or_eq_false_iff, Bool.not_eq_false',
        decide_eq_false_iff_not] at h4
      obtain ⟨hw, hmem⟩ := h4
      rcases hfind : findMap c.inputs msg.serial_id with _ | old
      · exact absurd hfind h6
      · simp [NegotiationContext.receive_tx_add_input, h1, Nat.not_le.mpr h2, h3, hget,
          hw, insertSet, hmem, Nat.not_lt.mpr h5, insertMap, hfind]
  · intro h1 h2 h3 h4 h5 h6
    rcases hget : msg.prevtx.output[msg.prevtx_out]? with _ | t
    · simp [prev_out_check_fails, hget] at h4
    · simp only [prev_out_check_fails, hget, Bool.or_eq_false_iff, Bool.not_eq_false',
        decide_eq_false_iff_not] at h4
      obtain ⟨hw, hmem⟩ := h4
      refine ⟨?_, t, rfl, ?_⟩ <;>
        simp [NegotiationContext.receive_tx_add_input, h1, Nat.not_le.mpr h2, h3, hget,
          hw, insertSet, hmem, Nat.not_lt.mpr h5, insertMap, h6]

/-- Claim C9, amended: driver outbound policy. `new` returns an opening
message exactly when the holder is the initiator AND the opening local step
succeeds: with a pending input contribution the opening step always fails
(the placeholder-prevtx `TxAddInput` aborts and the `.unwrap()` panics,
modelled as `.error ()`); a non-initiator gets no message. Each local step
chooses in priority order — pending input (attempt always fails), else
pending output (emit `TxAddOutput`, popping the list), else `TxComplete` —
as stated here for the legal `RemoteChange` source state. -/
theorem driver_outbound_policy_amended :
    (∀ (cid fr : Nat) (rc : Bool) (base : BTransaction) (dss : Bool)
        (ins : List TxInputWithPrevOutput) (outs : List BTxOut) (rand_u64 : Nat),
      InteractiveTxConstructor.new cid fr rc false base dss ins outs rand_u64 =
        .ok ({ state_machine := StateMachine.new fr rc false base dss,
               channel_id := cid, is_initiator := false,
               inputs_to_contribute := ins, outputs_to_contribute := outs }, none)) ∧
    (∀ (cid fr : Nat) (rc : Bool) (base : BTransaction) (dss : Bool)
        (ins : List TxInputWithPrevOutput) (outs : List BTxOut) (rand_u64 : Nat),
      ins ≠ [] →
      InteractiveTxConstructor.new cid fr rc true base dss ins outs rand_u64 =
        .error ()) ∧
    (∀ (c : InteractiveTxConstructor) (rand_u64 : Nat) (ctx : NegotiationContext),
      c.inputs_to_contribute = [] → c.outputs_to_contribute = [] →
      c.state_machine = .RemoteChange ctx →
      c.generate_message_send rand_u64 =
        (.ok (.TxComplete { channel_id := c.channel_id }),
         { c with state_machine := .LocalTxComplete ctx })) ∧
    (∀ (c : InteractiveTxConstructor) (rand_u64 : Nat) (ctx : NegotiationContext)
        (o : BTxOut) (rest : List BTxOut),
      c.inputs_to_contribute = [] →
      vecPop c.outputs_to_contribute = some (o, rest) →
      c.state_machine = .RemoteChange ctx →
      c.generate_message_send rand_u64 =
        (.ok (.TxAddOutput
            { channel_id := c.channel_id,
              serial_id := generate_local_serial_id c.is_initiator rand_u64,
              sats := o.value, script := o.script_pubkey }),
         { c with
            state_machine := .LocalChange
              (ctx.send_tx_add_output (generate_local_serial_id c.is_initiator rand_u64)
                { value := o.value, script_pubkey := o.script_pubkey }),
            outputs_to_contribute := rest })) := by
  refine ⟨?_, ?_, ?_, ?_⟩
  · intro cid fr rc base dss ins outs rand
    rfl
  · intro cid fr rc base dss ins outs rand h
    match hl : ins with
    | [] => exact absurd rfl h
    | x :: xs =>
      obtain ⟨y, ys, hpop⟩ := vecPop_cons_isSome x xs
      simp [InteractiveTxConstructor.new, InteractiveTxConstructor.generate_message_send,
        hpop, StateMachine.new, StateMachine.send_tx_add_input,
        NegotiationContext.send_tx_add_input, placeholder_prevtx]
  · intro c rand ctx h1 h2 h3
    simp [InteractiveTxConstructor.generate_message_send, h1, h2, vecPop, h3,
      StateMachine.send_tx_complete]
  · intro c rand ctx o rest h1 h2 h3
    simp [InteractiveTxConstructor.generate_message_send, h1, h2, vecPop, h3,
      StateMachine.send_tx_add_output]

/-- Claim C9 witness: the local step of a concrete initiator driver with
no pending contributions emits `TxComplete` and moves to
`LocalTxComplete`. -/
theorem driver_outbound_policy_amended_witness :
    c9_cons.generate_message_send 0 =
      (.ok (.TxComplete { channel_id := c9_cons.channel_id }),
       { c9_cons with state_machine := .LocalTxComplete c9_ctx }) :=
  driver_outbound_policy_amended.2.2.1 c9_cons 0 c9_ctx rfl rfl rfl

/-- Claim C1: turn-taking. A receive change event succeeds only from
`LocalChange` / `LocalTxComplete` and lands in `RemoteChange`; a send
change event succeeds only from `RemoteChange` / `RemoteTxComplete` and
lands in `LocalChange`; from every other state (the two terminal states
included) the event yields `UnexpectedCounterpartyMessage`; and once a
driver is in `NegotiationAborted`, every further public receive call
returns an error and leaves the machine in
`NegotiationAborted(UnexpectedCounterpartyMessage)`. -/
theorem turn_taking :
    ∀ (sm : StateMachine) (e : ChangeEvent),
      (∀ sm', sm.applyChange e = .ok sm' →
        (e.isReceive = true → sm.isLocalSource = true ∧ sm'.isRemoteChangeState = true) ∧
        (e.isReceive = false → sm.isRemoteSource = true ∧ sm'.isLocalChangeState = true)) ∧
      (e.isReceive = true → sm.isLocalSource = false →
        sm.applyChange e = .error .UnexpectedCounterpartyMessage) ∧
      (e.isReceive = false → sm.isRemoteSource = false →
        sm.applyChange e = .error .UnexpectedCounterpartyMessage) ∧
      (∀ (cons : InteractiveTxConstructor) (r : AbortReason) (rand_u64 : Nat),
        cons.state_machine = .NegotiationAborted r →
        (∀ (m : msgs.TxAddInput) (conf : Bool),
          (cons.receive_tx_add_input m conf rand_u64).1 = .error () ∧
          (cons.receive_tx_add_input m conf rand_u64).2.state_machine =
            .NegotiationAborted .UnexpectedCounterpartyMessage) ∧
        (∀ m : msgs.TxRemoveInput,
          (cons.receive_tx_remove_input m rand_u64).1 = .error () ∧
          (cons.receive_tx_remove_input m rand_u64).2.state_machine =
            .NegotiationAborted .UnexpectedCounterpartyMessage) ∧
        (∀ m : msgs.TxAddOutput,
          (cons.receive_tx_add_output m rand_u64).1 = .error () ∧
          (cons.receive_tx_add_output m rand_u64).2.state_machine =
            .NegotiationAborted .UnexpectedCounterpartyMessage) ∧
        (∀ m : msgs.TxRemoveOutput,
          (cons.receive_tx_remove_output m rand_u64).1 = .error () ∧
          (cons.receive_tx_remove_output m rand_u64).2.state_machine =
            .NegotiationAborted .UnexpectedCounterpartyMessage) ∧
        (∀ m : msgs.TxComplete,
          (cons.receive_tx_complete m rand_u64).1 = .error () ∧
          (cons.receive_tx_complete m rand_u64).2.state_machine =
            .NegotiationAborted .UnexpectedCounterpartyMessage)) := by
  intro sm e
  refine ⟨?_, ?_, ?_, ?_⟩
  · intro sm' h
    cases e <;> cases sm <;>
      simp only [StateMachine.applyChange, StateMachine.receive_tx_add_input,
        StateMachine.receive_tx_add_output, StateMachine.receive_tx_remove_input,
        StateMachine.receive_tx_remove_output, StateMachine.send_tx_add_input,
        StateMachine.send_tx_add_output, StateMachine.send_tx_remove_input,
        StateMachine.send_tx_remove_output] at h <;>
      (try split at h) <;>
      first
        | (injection h with h
           rw [← h]
           simp [ChangeEvent.isReceive, StateMachine.isLocalSource,
             StateMachine.isRemoteSource, StateMachine.isRemoteChangeState,
             StateMachine.isLocalChangeState])
        | simp_all [ChangeEvent.isReceive, StateMachine.isLocalSource,
            StateMachine.isRemoteSource, StateMachine.isRemoteChangeState,
            StateMachine.isLocalChangeState]
  · intro hrecv hsrc
    cases e <;> (try simp [ChangeEvent.isReceive] at hrecv) <;>
      cases sm <;> (try simp [StateMachine.isLocalSource] at hsrc) <;> rfl
  · intro hrecv hsrc
    cases e <;> (try simp [ChangeEvent.isReceive] at hrecv) <;>
      cases sm <;> (try simp [StateMachine.isRemoteSource] at hsrc) <;> rfl
  · intro cons r rand hab
    refine ⟨?_, ?_, ?_, ?_, ?_⟩ <;> intro m <;>
      simp [InteractiveTxConstructor.receive_tx_add_input,
        InteractiveTxConstructor.receive_tx_remove_input,
        InteractiveTxConstructor.receive_tx_add_output,
        InteractiveTxConstructor.receive_tx_remove_output,
        InteractiveTxConstructor.receive_tx_complete, hab,
        StateMachine.receive_tx_add_input, StateMachine.receive_tx_add_output,
        StateMachine.receive_tx_remove_input, StateMachine.receive_tx_remove_output,
        StateMachine.receive_tx_complete]

/-- Claim C1 witness: a receive change event in the terminal state
`NegotiationComplete` is rejected with `UnexpectedCounterpartyMessage`. -/
theorem turn_taking_witness :
    StateMachine.applyChange (.NegotiationComplete base_tx_v2) (.recvAddInput msgW true)
      = .error .UnexpectedCounterpartyMessage :=
  (turn_taking (.NegotiationComplete base_tx_v2) (.recvAddInput msgW true)).2.1 rfl rfl

/-- Claim C7 witness: the success case of the cascade evaluated at the
concrete receive `ctxW --msgW--> ctxW1`. -/
theorem receive_tx_add_input_check_order_witness :
    (ctxW.receive_tx_add_input msgW true).1 = none ∧
    ∃ t, msgW.prevtx.output[msgW.prevtx_out]? = some t ∧
      (ctxW.receive_tx_add_input msgW true).2.inputs = ctxW.inputs ++
        [(msgW.serial_id,
          { input :=
              { previous_output := { txid := msgW.prevtx.txid, vout := msgW.prevtx_out },
                sequence := msgW.sequence },
            prev_output := t })] :=
  (receive_tx_add_input_check_order ctxW msgW true).2.2.2.2.2.2
    (by decide) (by decide) (by decide) (by decide) (by decide) (by decide)

/-- `HashMap::insert` returns exactly the previous binding. -/
theorem insertMap_fst {α : Type} (m : List (Nat × α)) (k : Nat) (v : α) :
    (insertMap m k v).1 = findMap m k := by
  unfold insertMap
  rcases findMap m k <;> rfl

/-- Success shape of `receive_tx_add_output`: the serial id has
counterparty parity and is fresh, and the context gains exactly the
incremented received counter and the new outputs entry. -/
theorem receive_tx_add_output_success_shape (c : NegotiationContext) (sid : Nat)
    (out : BTxOut) (c' : NegotiationContext)
    (h : c.receive_tx_add_output sid out = (none, c')) :
    c.is_valid_counterparty_serial_id sid = true ∧
    findMap c.outputs sid = none ∧
    c' = { c with received_tx_add_output_count := c.received_tx_add_output_count + 1,
                  outputs := c.outputs ++ [(sid, out)] } := by
  unfold NegotiationContext.receive_tx_add_output at h
  split at h
  · simp at h
  next hpar =>
  rcases hfind : findMap c.outputs sid with _ | old
  · simp only [insertMap, hfind] at h
    repeat' split at h
    all_goals simp_all
  · simp only [insertMap, hfind] at h
    repeat' split at h
    all_goals simp_all

/-- `is_valid_counterparty_serial_id` depends only on the holder flag. -/
theorem is_valid_counterparty_congr (c₁ c₂ : NegotiationContext)
    (h : c₁.holder_is_initiator = c₂.holder_is_initiator) (s : Nat) :
    c₁.is_valid_counterparty_serial_id s = c₂.is_valid_counterparty_serial_id s := by
  unfold NegotiationContext.is_valid_counterparty_serial_id
  rw [h]

/-- Removing, in order, every serial id of the inputs map (all of
counterparty parity) succeeds, empties the map and never touches either
received counter. -/
theorem runRecvRemoveInputs_all :
    ∀ (entries : List (Nat × TxInputWithPrevOutput)) (c : NegotiationContext),
      c.inputs = entries →
      (∀ p ∈ entries, c.is_valid_counterparty_serial_id p.1 = true) →
      ∃ c₂, runRecvRemoveInputs c (entries.map (fun p => p.1)) = some c₂ ∧
        c₂.inputs = [] ∧
        c₂.received_tx_add_input_count = c.received_tx_add_input_count ∧
        c₂.received_tx_add_output_count = c.received_tx_add_output_count := by
  intro entries
  induction entries with
  | nil =>
      intro c hin _
      exact ⟨c, rfl, hin, rfl, rfl⟩
  | cons e tl ih =>
      intro c hin hpar
      obtain ⟨k, v⟩ := e
      have hvk : c.is_valid_counterparty_serial_id k = true :=
        hpar (k, v) (List.mem_cons_self _ _)
      have hstep : c.receive_tx_remove_input k =
          (none,
            { c with
                inputs := tl,
                prevtx_outpoints :=
                  removeSet c.prevtx_outpoints v.input.previous_output }) := by
        unfold NegotiationContext.receive_tx_remove_input
        rw [if_neg (by simp [hvk])]
        simp [hin, removeMap]
      obtain ⟨c₂, hrun, h0, h1, h2⟩ :=
        ih { c with
              inputs := tl,
              prevtx_outpoints :=
                removeSet c.prevtx_outpoints v.input.previous_output }
          rfl (fun p hp => hpar p (List.mem_cons_of_mem _ hp))
      refine ⟨c₂, ?_, h0, h1, h2⟩
      simp only [List.map_cons, runRecvRemoveInputs, hstep, hrun]

/-- Removing, in order, every serial id of the outputs map (all of
counterparty parity) succeeds, empties the map and never touches either
received counter. -/
theorem runRecvRemoveOutputs_all :
    ∀ (entries : List (Nat × BTxOut)) (c : NegotiationContext),
      c.outputs = entries →
      (∀ p ∈ entries, c.is_valid_counterparty_serial_id p.1 = true) →
      ∃ c₂, runRecvRemoveOutputs c (entries.map (fun p => p.1)) = some c₂ ∧
        c₂.outputs = [] ∧
        c₂.received_tx_add_input_count = c.received_tx_add_input_count ∧
        c₂.received_tx_add_output_count = c.received_tx_add_output_count := by
  intro entries
  induction entries with
  | nil =>
      intro c hout _
      exact ⟨c, rfl, hout, rfl, rfl⟩
  | cons e tl ih =>
      intro c hout hpar
      obtain ⟨k, v⟩ := e
      have hvk : c.is_valid_counterparty_serial_id k = true :=
        hpar (k, v) (List.mem_cons_self _ _)
      have hstep : c.receive_tx_remove_output k = (none, { c with outputs := tl }) := by
        unfold NegotiationContext.receive_tx_remove_output
        rw [if_neg (by simp [hvk])]
        simp [hout, removeMap]
      obtain ⟨c₂, hrun, h0, h1, h2⟩ :=
        ih { c with outputs := tl } rfl
          (fun p hp => hpar p (List.mem_cons_of_mem _ hp))
      refine ⟨c₂, ?_, h0, h1, h2⟩
      simp only [List.map_cons, runRecvRemoveOutputs, hstep, hrun]

/-- A successful run of receive input adds appends exactly one entry per
message, keyed by the messages' serial ids, all of counterparty parity; the
holder flag and the output counter are untouched. -/
theorem runRecvAddInputs_shape :
    ∀ (ms : List (msgs.TxAddInput × Bool)) (c c₁ : NegotiationContext),
      runRecvAddInputs c ms = some c₁ →
      ∃ entries, c₁.inputs = c.inputs ++ entries ∧
        entries.map (fun p => p.1) = ms.map (fun p => p.1.serial_id) ∧
        (∀ p ∈ entries, c₁.is_valid_counterparty_serial_id p.1 = true) ∧
        c₁.holder_is_initiator = c.holder_is_initiator ∧
        c₁.received_tx_add_output_count = c.received_tx_add_output_count := by
  intro ms
  induction ms with
  | nil =>
      intro c c₁ h
      simp only [runRecvAddInputs] at h
      injection h with h
      subst h
      exact ⟨[], by simp, by simp, by simp, rfl, rfl⟩
  | cons m tl ih =>
      intro c c₁ h
      obtain ⟨mm, conf⟩ := m
      rcases hstep : c.receive_tx_add_input mm conf with ⟨ro, c'⟩
      cases ro with
      | some r =>
          simp only [runRecvAddInputs, hstep] at h
          exact Option.noConfusion h
      | none =>
          simp only [runRecvAddInputs, hstep] at h
          obtain ⟨t, hget, hpar, hfind, hmem, hc'⟩ :=
            receive_tx_add_input_success_shape c mm conf c' hstep
          obtain ⟨entries, he, hser, hparities, hhold, houtc⟩ := ih c' c₁ h
          subst hc'
          refine ⟨(mm.serial_id,
            { input :=
                { previous_output := { txid := mm.prevtx.txid, vout := mm.prevtx_out },
                  sequence := mm.sequence },
              prev_output := t }) :: entries, ?_, ?_, ?_, ?_, ?_⟩
          · simp only [he]
            simp
          · simp [hser]
          · intro p hp
            rcases List.mem_cons.mp hp with hp | hp
            · rw [hp]
              rw [is_valid_counterparty_congr c₁ c (by simp [hhold]) mm.serial_id]
              exact hpar
            · exact hparities p hp
          · simpa using hhold
          · simpa using houtc

/-- A successful run of receive output adds appends exactly one entry per
message, keyed by the messages' serial ids, all of counterparty parity; the
holder flag and the input counter are untouched. -/
theorem runRecvAddOutputs_shape :
    ∀ (os : List (Nat × BTxOut)) (c c₁ : NegotiationContext),
      runRecvAddOutputs c os = some c₁ →
      ∃ entries, c₁.outputs = c.outputs ++ entries ∧
        entries.map (fun p => p.1) = os.map (fun p => p.1) ∧
        (∀ p ∈ entries, c₁.is_valid_counterparty_serial_id p.1 = true) ∧
        c₁.holder_is_initiator = c.holder_is_initiator ∧
        c₁.received_tx_add_input_count = c.received_tx_add_input_count := by
  intro os
  induction os with
  | nil =>
      intro c c₁ h
      simp only [runRecvAddOutputs] at h
      injection h with h
      subst h
      exact ⟨[], by simp, by simp, by simp, rfl, rfl⟩
  | cons o tl ih =>
      intro c c₁ h
      obtain ⟨sid, out⟩ := o
      rcases hstep : c.receive_tx_add_output sid out with ⟨ro, c'⟩
      cases ro with
      | some r =>
          simp only [runRecvAddOutputs, hstep] at h
          exact Option.noConfusion h
      | none =>
          simp only [runRecvAddOutputs, hstep] at h
          obtain ⟨hpar, hfind, hc'⟩ :=
            receive_tx_add_output_success_shape c sid out c' hstep
          obtain ⟨entries, he, hser, hparities, hhold, hinc⟩ := ih c' c₁ h
          subst hc'
          refine ⟨(sid, out) :: entries, ?_, ?_, ?_, ?_, ?_⟩
          · simp only [he]
            simp
          · simp [hser]
          · intro p hp
            rcases List.mem_cons.mp hp with hp | hp
            · rw [hp]
              rw [is_valid_counterparty_congr c₁ c (by simp [hhold]) sid]
              exact hpar
            · exact hparities p hp
          · simpa using hhold
          · simpa using hinc

/-- Claim C10: neither `receive_tx_remove_input` nor
`receive_tx_remove_output` ever changes either received counter, and any
sequence of successful receive adds (into an empty map) followed by
receive removes of the same serial ids leaves the inputs/outputs maps
empty while both received counters keep the values reached after the
adds. -/
theorem remove_after_add_counters :
    (∀ (c : NegotiationContext) (sid : Nat),
      (c.receive_tx_remove_input sid).2.received_tx_add_input_count =
        c.received_tx_add_input_count ∧
      (c.receive_tx_remove_input sid).2.received_tx_add_output_count =
        c.received_tx_add_output_count ∧
      (c.receive_tx_remove_output sid).2.received_tx_add_input_count =
        c.received_tx_add_input_count ∧
      (c.receive_tx_remove_output sid).2.received_tx_add_output_count =
        c.received_tx_add_output_count) ∧
    (∀ (ms : List (msgs.TxAddInput × Bool)) (c c₁ : NegotiationContext),
      c.inputs = [] →
      runRecvAddInputs c ms = some c₁ →
      ∃ c₂, runRecvRemoveInputs c₁ (ms.map (fun p => p.1.serial_id)) = some c₂ ∧
        c₂.inputs = [] ∧
        c₂.received_tx_add_input_count = c₁.received_tx_add_input_count ∧
        c₂.received_tx_add_output_count = c₁.received_tx_add_output_count) ∧
    (∀ (os : List (Nat × BTxOut)) (c c₁ : NegotiationContext),
      c.outputs = [] →
      runRecvAddOutputs c os = some c₁ →
      ∃ c₂, runRecvRemoveOutputs c₁ (os.map (fun p => p.1)) = some c₂ ∧
        c₂.outputs = [] ∧
        c₂.received_tx_add_input_count = c₁.received_tx_add_input_count ∧
        c₂.received_tx_add_output_count = c₁.received_tx_add_output_count) := by
  refine ⟨?_, ?_, ?_⟩
  · intro c sid
    refine ⟨?_, ?_, ?_, ?_⟩ <;>
      (first
        | simp only [NegotiationContext.receive_tx_remove_input]
        | simp only [NegotiationContext.receive_tx_remove_output]) <;>
      (repeat' split) <;> rfl
  · intro ms c c₁ hempty hrun
    obtain ⟨entries, he, hser, hpar, hhold, houtc⟩ :=
      runRecvAddInputs_shape ms c c₁ hrun
    rw [hempty] at he
    simp only [List.nil_append] at he
    rw [← hser]
    exact runRecvRemoveInputs_all entries c₁ he hpar
  · intro os c c₁ hempty hrun
    obtain ⟨entries, he, hser, hpar, hhold, hinc⟩ :=
      runRecvAddOutputs_shape os c c₁ hrun
    rw [hempty] at he
    simp only [List.nil_append] at he
    rw [← hser]
    exact runRecvRemoveOutputs_all entries c₁ he hpar

/-- Claim C10 witness: add-then-remove of the single input `msgW` on the
empty context `ctxW`. -/
theorem remove_after_add_counters_witness :
    ∃ c₂, runRecvRemoveInputs ctxW1 [msgW.serial_id] = some c₂ ∧
      c₂.inputs = [] ∧
      c₂.received_tx_add_input_count = ctxW1.received_tx_add_input_count ∧
      c₂.received_tx_add_output_count = ctxW1.received_tx_add_output_count :=
  remove_after_add_counters.2.1 [(msgW, true)] ctxW ctxW1 rfl rfl

end InteractiveTxs
